import Mathlib

/-!
Shallow embedding of the face-detector program: src/main.go (the batch
variant) and src/unnamed/part_000 (the single-image variant).

External collaborators (the OpenCV cascade classifier, image decoding, WebP
encoding, the file system) are modelled as explicit inputs: a `DetectEnv`
records whether the classifier definition file loads, whether the input image
decodes, the list of face rectangles the detector returns on the working
raster, and the success of each file write.  The working raster is modelled
by its dimensions together with the ordered list of rectangle outlines drawn
on it so far; each crop records the raster annotation state at the moment the
sub-view is taken.  File writes are modelled by the list of paths written, in
order.
-/

/-- Go built-in `max` on int (spelled out at src/unnamed/part_000 lines 141-146;
src/main.go uses the identical Go 1.21 built-in). -/
def goMax (a b : Int) : Int := if a > b then a else b

/-- Go built-in `min` on int (spelled out at src/unnamed/part_000 lines 148-153;
src/main.go uses the identical Go 1.21 built-in). -/
def goMin (a b : Int) : Int := if a < b then a else b

/-- Go integer division on int: truncation toward zero. -/
def goDiv (a b : Int) : Int := Int.tdiv a b

namespace Image

/-- Go `image.Point`. -/
structure Point where
  X : Int
  Y : Int
deriving DecidableEq, Repr, Inhabited

/-- Go `image.Rectangle`. -/
structure Rectangle where
  Min : Point
  Max : Point
deriving DecidableEq, Repr, Inhabited

/-- Go `image.Rectangle.Dx`: width. -/
def Rectangle.Dx (r : Rectangle) : Int := r.Max.X - r.Min.X

/-- Go `image.Rectangle.Dy`: height. -/
def Rectangle.Dy (r : Rectangle) : Int := r.Max.Y - r.Min.Y

/-- Go `image.Rect(x0, y0, x1, y1)`: builds the rectangle after swapping the
two coordinates of an axis when they are given in decreasing order. -/
def Rect (x0 y0 x1 y1 : Int) : Rectangle :=
  ⟨⟨if x0 > x1 then x1 else x0, if y0 > y1 then y1 else y0⟩,
   ⟨if x0 > x1 then x0 else x1, if y0 > y1 then y0 else y1⟩⟩

end Image

/-- The expanded rectangle computed inside the detection loop of `detectFace`
(src/main.go lines 89-97 and src/unnamed/part_000 lines 88-96): asymmetric
padding of the detected box, clamped to the working raster whose dimensions
are `cols` by `rows` (`resizedImg.Cols()`, `resizedImg.Rows()`). -/
def expandedRect (cols rows : Int) (face : Image.Rectangle) : Image.Rectangle :=
  let extraWidth := goDiv face.Dx 2
  let extraHeightTop := goDiv face.Dy 2
  let extraHeightBottom := face.Dy
  Image.Rect (goMax 0 (face.Min.X - extraWidth)) (goMax 0 (face.Min.Y - extraHeightTop))
    (goMin cols (face.Max.X + extraWidth)) (goMin rows (face.Max.Y + extraHeightBottom))

/-- The crop rectangle computed in `cropAndSaveFace` (src/main.go lines 39-47
and src/unnamed/part_000 lines 41-49) over the raster it is handed, whose
dimensions are `cols` by `rows` (`img.Cols()`, `img.Rows()`).  The raster
passed in by `detectFace` is the working raster, and drawing outlines on it
does not change its dimensions. -/
def cropRect (cols rows : Int) (face : Image.Rectangle) : Image.Rectangle :=
  let extraWidth := goDiv face.Dx 2
  let extraHeightTop := goDiv face.Dy 2
  let extraHeightBottom := face.Dy
  Image.Rect (goMax 0 (face.Min.X - extraWidth)) (goMax 0 (face.Min.Y - extraHeightTop))
    (goMin cols (face.Max.X + extraWidth)) (goMin rows (face.Max.Y + extraHeightBottom))

/-- Outcomes of the external collaborators for one `detectFace` call:
whether `classifier.Load` succeeds, whether `gocv.IMRead` yields a non-empty
image, the detections returned by `DetectMultiScaleWithParams` on the working
raster, and the success of each write performed by `saveMatAsWebP` (the entry
at position `i` of `saveFaceOks` is the outcome of the save for the face at
0-based loop position `i`; a missing entry means success). -/
structure DetectEnv where
  classifierOk : Bool
  imageOk : Bool
  faces : List Image.Rectangle
  saveFaceOks : List Bool
  saveMainOk : Bool
deriving DecidableEq, Repr

/-- One `img.Region(cropRect)` call inside the detection loop: the 1-based
detection index, the crop rectangle, and the annotation state of the working
raster (the ordered list of rectangle outlines drawn so far) at the moment
the sub-view is taken. -/
structure CropEvent where
  index : Nat
  rect : Image.Rectangle
  drawnAtCrop : List Image.Rectangle
deriving DecidableEq, Repr

/-- Result of the detection loop of `detectFace` (src/main.go lines 88-103,
src/unnamed/part_000 lines 86-102): the outlines drawn on the working raster
in order, the crop events, the face files written in order, and the error the
loop aborted with, if any. -/
structure LoopOut where
  drawn : List Image.Rectangle
  crops : List CropEvent
  written : List String
  err : Option String
deriving DecidableEq, Repr

/-- The detection loop of `detectFace`.  For each face, in detector order: the
expanded rectangle is drawn on the working raster (`gocv.Rectangle`), then
`cropAndSaveFace` takes a sub-view of the already-annotated raster at the crop
rectangle and writes it to `cropName (i + 1)`; if that write fails the loop
returns immediately with the error.  `i` is the 0-based loop index, `drawn`
the outlines already on the raster. -/
def faceLoop (cropName : Nat → String) (cols rows : Int) (saveOks : List Bool) :
    List Image.Rectangle → Nat → List Image.Rectangle → LoopOut
  | [], _, drawn => ⟨drawn, [], [], none⟩
  | face :: rest, i, drawn =>
    let drawn2 := drawn ++ [expandedRect cols rows face]
    let cr := cropRect cols rows face
    if saveOks.getD i true then
      let res := faceLoop cropName cols rows saveOks rest (i + 1) drawn2
      ⟨res.drawn, ⟨i + 1, cr, drawn2⟩ :: res.crops, cropName (i + 1) :: res.written, res.err⟩
    else
      ⟨drawn2, [⟨i + 1, cr, drawn2⟩], [], some "error saving face image"⟩

/-- Result of one `detectFace` call: the boolean it returns, the error it
returns, the files written (in order), whether the main annotated output was
written, the outlines drawn, and the crop events. -/
structure DetectResult where
  hasFace : Bool
  err : Option String
  written : List String
  mainWritten : Bool
  drawn : List Image.Rectangle
  crops : List CropEvent
deriving DecidableEq, Repr

/-- Go `filepath.Base` for slash-separated paths (src/main.go line 85). -/
def goBase (path : String) : String :=
  if path = "" then "." else
  let rev := path.data.reverse.dropWhile (fun c => c = '/')
  if rev.isEmpty then "/" else
  String.mk ((rev.takeWhile (fun c => c ≠ '/')).reverse)

/-- Length, in characters, of the Go `filepath.Ext` suffix of a path given in
reverse character order: everything from the final dot of the final
slash-separated element, or 0 when there is no such dot. -/
def extLenRev : List Char → Nat
  | [] => 0
  | c :: rest =>
    if c = '.' then 1
    else if c = '/' then 0
    else
      let n := extLenRev rest
      if n = 0 then 0 else n + 1

/-- The slice `name[:len(name)-len(filepath.Ext(name))]` of src/main.go
line 86: the file name with its extension removed. -/
def goStripExt (name : String) : String :=
  let cs := name.data
  String.mk (cs.take (cs.length - extLenRev cs.reverse))

namespace Batch

/-- The per-face output path of the batch variant:
`filepath.Join(outputDir, fmt.Sprintf("%s_face_%d.webp", baseFilename, index))`
(src/main.go line 52), for clean relative components. -/
def cropFileName (outputDir baseFilename : String) (index : Nat) : String :=
  outputDir ++ "/" ++ baseFilename ++ "_face_" ++ toString index ++ ".webp"

/-- `detectFace` of src/main.go (lines 56-110).  Early exits: classifier load
failure, unreadable image, zero detections.  Otherwise the detection loop
runs; if it fails its error is returned with the files it wrote, else the
annotated working raster is saved to `outputImagePath`. -/
def detectFace (env : DetectEnv) (imagePath outputImagePath outputDir : String)
    (cols rows : Int) : DetectResult :=
  if env.classifierOk = false then
    ⟨false, some "error loading Haar cascade file", [], false, [], []⟩
  else if env.imageOk = false then
    ⟨false, some "error reading image", [], false, [], []⟩
  else if env.faces.isEmpty then
    ⟨false, none, [], false, [], []⟩
  else
    let baseFilename := goStripExt (goBase imagePath)
    let lo := faceLoop (cropFileName outputDir baseFilename) cols rows
      env.saveFaceOks env.faces 0 []
    match lo.err with
    | some e => ⟨false, some e, lo.written, false, lo.drawn, lo.crops⟩
    | none =>
      if env.saveMainOk then
        ⟨true, none, lo.written ++ [outputImagePath], true, lo.drawn, lo.crops⟩
      else
        ⟨false, some "error saving output image in WebP format", lo.written, false,
          lo.drawn, lo.crops⟩

/-- One directory entry seen by `processImages`: its name, whether it is a
directory, and the external outcomes of processing it. -/
structure FileEntry where
  name : String
  isDir : Bool
  env : DetectEnv
deriving DecidableEq, Repr

/-- Observable outcome of the batch loop: log lines printed, files written. -/
structure BatchOut where
  logs : List String
  written : List String
deriving DecidableEq, Repr

/-- The loop of `processImages` (src/main.go lines 118-130): directories are
skipped; for each file a progress line is printed, `detectFace` runs, and an
error is printed with the offending path but the loop continues. -/
def processFiles (inputDir outputDir : String) (cols rows : Int) :
    List FileEntry → BatchOut
  | [] => ⟨[], []⟩
  | e :: rest =>
    let r0 := processFiles inputDir outputDir cols rows rest
    if e.isDir then r0
    else
      let inputPath := inputDir ++ "/" ++ e.name
      let outputImagePath := outputDir ++ "/" ++ ("output_" ++ e.name ++ ".webp")
      let r := detectFace e.env inputPath outputImagePath outputDir cols rows
      let errLogs := match r.err with
        | some m => ["Error processing file " ++ inputPath ++ ": " ++ m]
        | none => []
      ⟨("Processing file: " ++ inputPath) :: (errLogs ++ r0.logs), r.written ++ r0.written⟩

/-- `processImages` of src/main.go (lines 112-133): fails only when the input
directory cannot be read; per-file errors are logged inside the loop and
never propagate. -/
def processImages (inputDir outputDir : String) (readDirOk : Bool)
    (entries : List FileEntry) (cols rows : Int) : BatchOut × Option String :=
  if readDirOk = false then (⟨[], []⟩, some "failed to read input directory")
  else (processFiles inputDir outputDir cols rows entries, none)

/-- Exit status of `main` of src/main.go (lines 135-150): 1 when creating the
output directory fails or `processImages` returns an error, else 0. -/
def mainExitCode (mkdirOk readDirOk : Bool) (entries : List FileEntry) : Nat :=
  if mkdirOk = false then 1
  else
    match (processImages "input_images" "output_images" readDirOk entries 1024 1024).2 with
    | some _ => 1
    | none => 0

end Batch

namespace Single

/-- The per-face output path of the single-image variant:
`fmt.Sprintf("face_%d.webp", index)` (src/unnamed/part_000 line 54). -/
def cropFileName (index : Nat) : String :=
  "face_" ++ toString index ++ ".webp"

/-- `detectFace` of src/unnamed/part_000 (lines 57-109): identical to the
batch variant except for the per-face output path, which does not involve the
input base filename or an output directory. -/
def detectFace (env : DetectEnv) (outputImagePath : String) (cols rows : Int) :
    DetectResult :=
  if env.classifierOk = false then
    ⟨false, some "error loading Haar cascade file", [], false, [], []⟩
  else if env.imageOk = false then
    ⟨false, some "error reading image", [], false, [], []⟩
  else if env.faces.isEmpty then
    ⟨false, none, [], false, [], []⟩
  else
    let lo := faceLoop cropFileName cols rows env.saveFaceOks env.faces 0 []
    match lo.err with
    | some e => ⟨false, some e, lo.written, false, lo.drawn, lo.crops⟩
    | none =>
      if env.saveMainOk then
        ⟨true, none, lo.written ++ [outputImagePath], true, lo.drawn, lo.crops⟩
      else
        ⟨false, some "error saving output image in WebP format", lo.written, false,
          lo.drawn, lo.crops⟩

/-- The structured log record printed by `processImage`
(src/unnamed/part_000 lines 117-121). -/
structure LogRecord where
  input_path : String
  output_path : String
  has_face : Bool
deriving DecidableEq, Repr

/-- Observable outcome of `processImage`: the error it returns, the log
record it prints on success, and the files written. -/
structure ProcessOut where
  err : Option String
  record : Option LogRecord
  written : List String
deriving DecidableEq, Repr

/-- `processImage` of src/unnamed/part_000 (lines 111-127): wraps a
`detectFace` error, else prints the structured log record. -/
def processImage (env : DetectEnv) (inputPath outputPath : String)
    (cols rows : Int) : ProcessOut :=
  let r := detectFace env outputPath cols rows
  match r.err with
  | some m => ⟨some ("failed to detect face: " ++ m), none, r.written⟩
  | none => ⟨none, some ⟨inputPath, outputPath, r.hasFace⟩, r.written⟩

/-- Exit status of `main` of src/unnamed/part_000 (lines 129-139): 1 when
`processImage` on the fixed paths returns an error, else 0. -/
def mainExitCode (env : DetectEnv) : Nat :=
  match (processImage env "teest.jpg" "output.webp" 1024 1024).err with
  | some _ => 1
  | none => 0

end Single

/-! Helper lemmas shared by several of the theorems below. -/

theorem goDiv_two_eq (a : Int) (h : 0 ≤ a) : goDiv a 2 = a / 2 := by
  unfold goDiv
  rw [Int.tdiv_eq_ediv h (by norm_num)]

/-- Closed form of `expandedRect` for a detection lying within the working
raster: the coordinate swap of `image.Rect` never fires, so the result is
exactly the padded-and-clamped tuple. -/
theorem expandedRect_inBounds_eq (cols rows : Int) (r : Image.Rectangle)
    (hx0 : 0 ≤ r.Min.X) (hx1 : r.Min.X ≤ r.Max.X) (hx2 : r.Max.X ≤ cols)
    (hy0 : 0 ≤ r.Min.Y) (hy1 : r.Min.Y ≤ r.Max.Y) (hy2 : r.Max.Y ≤ rows) :
    expandedRect cols rows r =
      ⟨⟨max 0 (r.Min.X - (r.Max.X - r.Min.X) / 2),
        max 0 (r.Min.Y - (r.Max.Y - r.Min.Y) / 2)⟩,
       ⟨min cols (r.Max.X + (r.Max.X - r.Min.X) / 2),
        min rows (r.Max.Y + (r.Max.Y - r.Min.Y))⟩⟩ := by
  obtain ⟨⟨x0, y0⟩, ⟨x1, y1⟩⟩ := r
  simp only [Image.Rectangle.Dx, Image.Rectangle.Dy] at *
  simp only [expandedRect, Image.Rect, Image.Rectangle.Dx, Image.Rectangle.Dy, goMax, goMin]
  rw [goDiv_two_eq _ (by omega), goDiv_two_eq _ (by omega)]
  simp only [Image.Rectangle.mk.injEq, Image.Point.mk.injEq]
  omega

/-- C1: for every detected rectangle r (detections lie within the working
raster, so its corners satisfy 0 ≤ left ≤ right ≤ W and 0 ≤ top ≤ bottom ≤ H)
with width w and height h, the expanded rectangle computed by the region
expander equals (max(0, left - w/2), max(0, top - h/2), min(W, right + w/2),
min(H, bottom + h)), the divisions being integer divisions. -/
theorem c1_region_expansion (cols rows : Int) (r : Image.Rectangle)
    (hx0 : 0 ≤ r.Min.X) (hx1 : r.Min.X ≤ r.Max.X) (hx2 : r.Max.X ≤ cols)
    (hy0 : 0 ≤ r.Min.Y) (hy1 : r.Min.Y ≤ r.Max.Y) (hy2 : r.Max.Y ≤ rows) :
    expandedRect cols rows r =
      ⟨⟨max 0 (r.Min.X - (r.Max.X - r.Min.X) / 2),
        max 0 (r.Min.Y - (r.Max.Y - r.Min.Y) / 2)⟩,
       ⟨min cols (r.Max.X + (r.Max.X - r.Min.X) / 2),
        min rows (r.Max.Y + (r.Max.Y - r.Min.Y))⟩⟩ :=
  expandedRect_inBounds_eq cols rows r hx0 hx1 hx2 hy0 hy1 hy2

/-- Witness for C1 at the spec scenario: raw detection (100,100)-(200,220) on
a 1024 by 1024 working raster expands to (50,40)-(250,340). -/
theorem c1_region_expansion_witness :
    expandedRect 1024 1024 ⟨⟨100, 100⟩, ⟨200, 220⟩⟩ = ⟨⟨50, 40⟩, ⟨250, 340⟩⟩ :=
  (c1_region_expansion 1024 1024 ⟨⟨100, 100⟩, ⟨200, 220⟩⟩ (by decide) (by decide)
    (by decide) (by decide) (by decide) (by decide)).trans (by decide)

/-- C5: for every raw rectangle fully inside the bounds, the expanded
rectangle contains it, satisfies 0 ≤ left ≤ right ≤ W and 0 ≤ top ≤ bottom ≤ H
(so no coordinate is ever negative), and a raw coordinate touching the 0 edge
stays 0 after expansion. -/
theorem c5_expansion_superset_and_clamped (cols rows : Int) (r : Image.Rectangle)
    (hx0 : 0 ≤ r.Min.X) (hx1 : r.Min.X ≤ r.Max.X) (hx2 : r.Max.X ≤ cols)
    (hy0 : 0 ≤ r.Min.Y) (hy1 : r.Min.Y ≤ r.Max.Y) (hy2 : r.Max.Y ≤ rows) :
    (expandedRect cols rows r).Min.X ≤ r.Min.X ∧
    (expandedRect cols rows r).Min.Y ≤ r.Min.Y ∧
    r.Max.X ≤ (expandedRect cols rows r).Max.X ∧
    r.Max.Y ≤ (expandedRect cols rows r).Max.Y ∧
    0 ≤ (expandedRect cols rows r).Min.X ∧
    (expandedRect cols rows r).Min.X ≤ (expandedRect cols rows r).Max.X ∧
    (expandedRect cols rows r).Max.X ≤ cols ∧
    0 ≤ (expandedRect cols rows r).Min.Y ∧
    (expandedRect cols rows r).Min.Y ≤ (expandedRect cols rows r).Max.Y ∧
    (expandedRect cols rows r).Max.Y ≤ rows ∧
    (r.Min.X = 0 → (expandedRect cols rows r).Min.X = 0) ∧
    (r.Min.Y = 0 → (expandedRect cols rows r).Min.Y = 0) := by
  rw [expandedRect_inBounds_eq cols rows r hx0 hx1 hx2 hy0 hy1 hy2]
  dsimp only
  omega

/-- Witness for C5 at the spec scenario: raw detection (0,0)-(40,40) on a
1024 by 1024 raster, whose expansion is (0,0)-(60,80). -/
theorem c5_expansion_superset_and_clamped_witness :
    (expandedRect 1024 1024 ⟨⟨0, 0⟩, ⟨40, 40⟩⟩).Min.X ≤ 0 ∧
    (expandedRect 1024 1024 ⟨⟨0, 0⟩, ⟨40, 40⟩⟩).Min.Y ≤ 0 ∧
    (40 : Int) ≤ (expandedRect 1024 1024 ⟨⟨0, 0⟩, ⟨40, 40⟩⟩).Max.X ∧
    (40 : Int) ≤ (expandedRect 1024 1024 ⟨⟨0, 0⟩, ⟨40, 40⟩⟩).Max.Y ∧
    0 ≤ (expandedRect 1024 1024 ⟨⟨0, 0⟩, ⟨40, 40⟩⟩).Min.X ∧
    (expandedRect 1024 1024 ⟨⟨0, 0⟩, ⟨40, 40⟩⟩).Min.X ≤
      (expandedRect 1024 1024 ⟨⟨0, 0⟩, ⟨40, 40⟩⟩).Max.X ∧
    (expandedRect 1024 1024 ⟨⟨0, 0⟩, ⟨40, 40⟩⟩).Max.X ≤ 1024 ∧
    0 ≤ (expandedRect 1024 1024 ⟨⟨0, 0⟩, ⟨40, 40⟩⟩).Min.Y ∧
    (expandedRect 1024 1024 ⟨⟨0, 0⟩, ⟨40, 40⟩⟩).Min.Y ≤
      (expandedRect 1024 1024 ⟨⟨0, 0⟩, ⟨40, 40⟩⟩).Max.Y ∧
    (expandedRect 1024 1024 ⟨⟨0, 0⟩, ⟨40, 40⟩⟩).Max.Y ≤ 1024 ∧
    ((0 : Int) = 0 → (expandedRect 1024 1024 ⟨⟨0, 0⟩, ⟨40, 40⟩⟩).Min.X = 0) ∧
    ((0 : Int) = 0 → (expandedRect 1024 1024 ⟨⟨0, 0⟩, ⟨40, 40⟩⟩).Min.Y = 0) :=
  c5_expansion_superset_and_clamped 1024 1024 ⟨⟨0, 0⟩, ⟨40, 40⟩⟩ (by decide) (by decide)
    (by decide) (by decide) (by decide) (by decide)

/-- C4 counterexample: the rectangle (5,5)-(5,125) has width 0 and lies inside
a 1024 by 1024 raster, yet its expansion is (5,0)-(5,245), not the raw
rectangle: the height is nonzero, so the vertical padding is nonzero. -/
theorem c4_degenerate_counterexample :
    (⟨⟨5, 5⟩, ⟨5, 125⟩⟩ : Image.Rectangle).Dx = 0 ∧
    0 ≤ (5 : Int) ∧ (5 : Int) ≤ 1024 ∧ (125 : Int) ≤ 1024 ∧
    expandedRect 1024 1024 ⟨⟨5, 5⟩, ⟨5, 125⟩⟩ = ⟨⟨5, 0⟩, ⟨5, 245⟩⟩ ∧
    expandedRect 1024 1024 ⟨⟨5, 5⟩, ⟨5, 125⟩⟩ ≠ ⟨⟨5, 5⟩, ⟨5, 125⟩⟩ := by
  decide

/-- C4 amended: for every degenerate detected rectangle with w = 0 and h = 0
that lies inside the raster bounds, the expanded rectangle equals the raw
rectangle (zero padding in both axes); such detections are not rejected: the
detection loop still produces a crop event and writes a per-face file for
them. -/
theorem c4_amended_degenerate (cols rows : Int) (r : Image.Rectangle)
    (cropName : Nat → String) (hw : r.Dx = 0) (hh : r.Dy = 0)
    (hx0 : 0 ≤ r.Min.X) (hx2 : r.Max.X ≤ cols)
    (hy0 : 0 ≤ r.Min.Y) (hy2 : r.Max.Y ≤ rows) :
    expandedRect cols rows r = r ∧
    (faceLoop cropName cols rows [] [r] 0 []).crops.length = 1 ∧
    (faceLoop cropName cols rows [] [r] 0 []).written = [cropName 1] := by
  simp only [Image.Rectangle.Dx, Image.Rectangle.Dy] at hw hh
  refine ⟨?_, ?_, ?_⟩
  · rw [expandedRect_inBounds_eq cols rows r hx0 (by omega) hx2 hy0 (by omega) hy2]
    obtain ⟨⟨x0, y0⟩, ⟨x1, y1⟩⟩ := r
    simp only at hw hh hx0 hx2 hy0 hy2
    simp only [Image.Rectangle.mk.injEq, Image.Point.mk.injEq]
    omega
  · simp [faceLoop]
  · simp [faceLoop]

/-- Witness for the amended C4: the point rectangle (7,9)-(7,9) inside a
100 by 100 raster expands to itself and still yields one crop and one
per-face file. -/
theorem c4_amended_degenerate_witness :
    expandedRect 100 100 ⟨⟨7, 9⟩, ⟨7, 9⟩⟩ = ⟨⟨7, 9⟩, ⟨7, 9⟩⟩ ∧
    (faceLoop Single.cropFileName 100 100 [] [⟨⟨7, 9⟩, ⟨7, 9⟩⟩] 0 []).crops.length = 1 ∧
    (faceLoop Single.cropFileName 100 100 [] [⟨⟨7, 9⟩, ⟨7, 9⟩⟩] 0 []).written =
      [Single.cropFileName 1] :=
  c4_amended_degenerate 100 100 ⟨⟨7, 9⟩, ⟨7, 9⟩⟩ Single.cropFileName (by decide) (by decide)
    (by decide) (by decide) (by decide) (by decide)

/-- C6: the rectangle drawn on the annotated working raster (computed in the
loop of detectFace) and the rectangle used to crop the per-face output
(computed in cropAndSaveFace) are given by the identical expansion-and-clamp
formula over the same raster bounds, hence are equal for every detection and
every bounds. -/
theorem c6_draw_and_crop_rect_agree (cols rows : Int) (face : Image.Rectangle) :
    expandedRect cols rows face = cropRect cols rows face := rfl

/-- List identity used to align a shifted write index with the loop index. -/
theorem range_map_shift (g : Nat → String) (k i : Nat) :
    (List.range (k + 1)).map (fun j => g (i + j + 1)) =
      g (i + 1) :: (List.range k).map (fun j => g (i + 1 + j + 1)) := by
  rw [List.range_succ_eq_map, List.map_cons, List.map_map]
  congr 1
  refine List.map_congr_left ?_
  intro a _
  simp only [Function.comp]
  congr 1
  omega

/-- When every per-face save succeeds, the detection loop finishes without an
error. -/
theorem faceLoop_err_none (cropName : Nat → String) (cols rows : Int)
    (saveOks : List Bool) (hok : ∀ j, saveOks.getD j true = true) :
    ∀ (faces : List Image.Rectangle) (i : Nat) (drawn : List Image.Rectangle),
      (faceLoop cropName cols rows saveOks faces i drawn).err = none := by
  intro faces
  induction faces with
  | nil => intro i drawn; rfl
  | cons face rest ih =>
    intro i drawn
    simp only [faceLoop, hok i, if_true]
    exact ih (i + 1) _

/-- When every per-face save succeeds, the detection loop writes exactly one
file per face, indexed in order starting after the loop index. -/
theorem faceLoop_written_all_ok (cropName : Nat → String) (cols rows : Int)
    (saveOks : List Bool) (hok : ∀ j, saveOks.getD j true = true) :
    ∀ (faces : List Image.Rectangle) (i : Nat) (drawn : List Image.Rectangle),
      (faceLoop cropName cols rows saveOks faces i drawn).written =
        (List.range faces.length).map (fun j => cropName (i + j + 1)) := by
  intro faces
  induction faces with
  | nil => intro i drawn; rfl
  | cons face rest ih =>
    intro i drawn
    simp only [faceLoop, hok i, if_true, List.length_cons]
    rw [ih (i + 1) _, range_map_shift]

/-- When every per-face save succeeds, the j-th crop event (0-based j) of the
detection loop carries the 1-based index, the crop rectangle of the j-th
face, and a raster annotation state consisting of the outlines already
present plus the expanded rectangles of the faces up to and including the
j-th one. -/
theorem faceLoop_crops_all_ok (cropName : Nat → String) (cols rows : Int)
    (saveOks : List Bool) (hok : ∀ j, saveOks.getD j true = true) :
    ∀ (faces : List Image.Rectangle) (i : Nat) (drawn : List Image.Rectangle)
      (j : Nat), j < faces.length →
      (faceLoop cropName cols rows saveOks faces i drawn).crops.get? j =
        some ⟨i + j + 1, cropRect cols rows (faces.getD j default),
          drawn ++ (faces.take (j + 1)).map (expandedRect cols rows)⟩ := by
  intro faces
  induction faces with
  | nil => intro i drawn j hj; simp at hj
  | cons face rest ih =>
    intro i drawn j hj
    simp only [faceLoop, hok i, if_true]
    cases j with
    | zero =>
      simp [cropRect, List.take_succ_cons]
    | succ j =>
      rw [List.get?_cons_succ, ih (i + 1) _ j (by simpa using hj)]
      have hidx : i + 1 + j + 1 = i + (j + 1) + 1 := by omega
      rw [hidx]
      simp [List.take_succ_cons, List.append_assoc, List.getD_cons_succ]

/-- When the save for the face at 0-based loop offset k fails and every
earlier save succeeds, the detection loop stops with the save error having
written exactly the files for the earlier faces. -/
theorem faceLoop_fail (cropName : Nat → String) (cols rows : Int)
    (saveOks : List Bool) :
    ∀ (faces : List Image.Rectangle) (i : Nat) (drawn : List Image.Rectangle)
      (k : Nat), k < faces.length →
      (∀ j, j < k → saveOks.getD (i + j) true = true) →
      saveOks.getD (i + k) true = false →
      (faceLoop cropName cols rows saveOks faces i drawn).err = some "error saving face image" ∧
      (faceLoop cropName cols rows saveOks faces i drawn).written =
        (List.range k).map (fun j => cropName (i + j + 1)) := by
  intro faces
  induction faces with
  | nil => intro i drawn k hk; simp at hk
  | cons face rest ih =>
    intro i drawn k hk hok hfail
    cases k with
    | zero =>
      have h0 : saveOks.getD i true = false := by simpa using hfail
      simp only [faceLoop, h0, Bool.false_eq_true, if_false]
      exact ⟨trivial, rfl⟩
    | succ k =>
      have h0 : saveOks.getD i true = true := by
        have h := hok 0 (Nat.succ_pos k)
        simpa using h
      simp only [faceLoop, h0, if_true]
      obtain ⟨he, hw⟩ := ih (i + 1) (drawn ++ [expandedRect cols rows face]) k
        (by simpa using hk)
        (fun j hj => by
          have h := hok (j + 1) (by omega)
          rw [show i + 1 + j = i + (j + 1) by omega]
          exact h)
        (by
          rw [show i + 1 + k = i + (k + 1) by omega]
          exact hfail)
      refine ⟨he, ?_⟩
      rw [hw, range_map_shift]

/-- C7: in the batch detectFace, when the classifier loads, the image reads
and all writes succeed, the crop for detection j+1 (1-based, detector order)
is taken from the working raster at a moment when it carries exactly the
outlines of detections 1 .. j+1: its own outline and those of the
earlier-processed detections, and no outline of a later detection.  (The
single-image detectFace shares the identical loop, `faceLoop`.) -/
theorem c7_crop_between_outlines (env : DetectEnv)
    (imagePath outputImagePath outputDir : String) (cols rows : Int)
    (hc : env.classifierOk = true) (hi : env.imageOk = true)
    (hok : ∀ j, env.saveFaceOks.getD j true = true)
    (j : Nat) (hj : j < env.faces.length) :
    (Batch.detectFace env imagePath outputImagePath outputDir cols rows).crops.get? j =
      some ⟨j + 1, cropRect cols rows (env.faces.getD j default),
        (env.faces.take (j + 1)).map (expandedRect cols rows)⟩ := by
  have hne : env.faces.isEmpty = false := by
    cases hfa : env.faces with
    | nil => rw [hfa] at hj; simp at hj
    | cons a l => simp [hfa]
  simp only [Batch.detectFace, hc, hi, hne, Bool.true_eq_false, Bool.false_eq_true, if_false]
  rw [faceLoop_err_none _ cols rows env.saveFaceOks hok env.faces 0 []]
  cases hm : env.saveMainOk with
  | true =>
    simp only [hm, if_true]
    rw [faceLoop_crops_all_ok _ cols rows env.saveFaceOks hok env.faces 0 [] j hj]
    simp
  | false =>
    simp only [hm, Bool.false_eq_true, if_false]
    rw [faceLoop_crops_all_ok _ cols rows env.saveFaceOks hok env.faces 0 [] j hj]
    simp

/-- C10: per-file output is not atomic.  If saving the crop for detection i
(1-based) fails while every earlier save succeeded, detectFace stops
immediately: exactly the crop files 1..i-1 have been written, no later crop
file is written, and the main annotated output is never written. -/
theorem c10_partial_outputs_on_save_failure (env : DetectEnv)
    (imagePath outputImagePath outputDir : String) (cols rows : Int) (i : Nat)
    (hc : env.classifierOk = true) (hi : env.imageOk = true)
    (h1 : 1 ≤ i) (h2 : i ≤ env.faces.length)
    (hok : ∀ j, j + 1 < i → env.saveFaceOks.getD j true = true)
    (hfail : env.saveFaceOks.getD (i - 1) true = false) :
    (Batch.detectFace env imagePath outputImagePath outputDir cols rows).err =
      some "error saving face image" ∧
    (Batch.detectFace env imagePath outputImagePath outputDir cols rows).written =
      (List.range (i - 1)).map
        (fun j => Batch.cropFileName outputDir (goStripExt (goBase imagePath)) (j + 1)) ∧
    (Batch.detectFace env imagePath outputImagePath outputDir cols rows).mainWritten = false := by
  have hne : env.faces.isEmpty = false := by
    cases hfa : env.faces with
    | nil => rw [hfa] at h2; simp at h2; omega
    | cons a l => simp [hfa]
  obtain ⟨he, hw⟩ := faceLoop_fail
    (Batch.cropFileName outputDir (goStripExt (goBase imagePath)))
    cols rows env.saveFaceOks env.faces 0 [] (i - 1) (by omega)
    (fun j hj => by simpa using hok j (by omega))
    (by simpa using hfail)
  simp only [Batch.detectFace, hc, hi, hne, Bool.true_eq_false, Bool.false_eq_true, if_false]
  rw [he]
  exact ⟨rfl, by simpa using hw, rfl⟩

/-- Witness for C10: three detections, the second save fails; only the first
crop file is written, the run errors, the main output is not written. -/
theorem c10_partial_outputs_on_save_failure_witness :
    (Batch.detectFace ⟨true, true, [⟨⟨1, 1⟩, ⟨2, 2⟩⟩, ⟨⟨3, 3⟩, ⟨4, 4⟩⟩, ⟨⟨5, 5⟩, ⟨6, 6⟩⟩],
        [true, false], true⟩ "input_images/a.jpg" "output_images/output_a.jpg.webp"
        "output_images" 1024 1024).err = some "error saving face image" ∧
    (Batch.detectFace ⟨true, true, [⟨⟨1, 1⟩, ⟨2, 2⟩⟩, ⟨⟨3, 3⟩, ⟨4, 4⟩⟩, ⟨⟨5, 5⟩, ⟨6, 6⟩⟩],
        [true, false], true⟩ "input_images/a.jpg" "output_images/output_a.jpg.webp"
        "output_images" 1024 1024).written =
      (List.range (2 - 1)).map
        (fun j => Batch.cropFileName "output_images"
          (goStripExt (goBase "input_images/a.jpg")) (j + 1)) ∧
    (Batch.detectFace ⟨true, true, [⟨⟨1, 1⟩, ⟨2, 2⟩⟩, ⟨⟨3, 3⟩, ⟨4, 4⟩⟩, ⟨⟨5, 5⟩, ⟨6, 6⟩⟩],
        [true, false], true⟩ "input_images/a.jpg" "output_images/output_a.jpg.webp"
        "output_images" 1024 1024).mainWritten = false :=
  c10_partial_outputs_on_save_failure
    ⟨true, true, [⟨⟨1, 1⟩, ⟨2, 2⟩⟩, ⟨⟨3, 3⟩, ⟨4, 4⟩⟩, ⟨⟨5, 5⟩, ⟨6, 6⟩⟩], [true, false], true⟩
    "input_images/a.jpg" "output_images/output_a.jpg.webp" "output_images" 1024 1024 2
    rfl rfl (by decide) (by decide)
    (fun j hj => by
      have hj0 : j = 0 := by omega
      subst hj0
      rfl)
    (by decide)

/-- C3 amended: with N detections (N ≥ 1) and all writes succeeding, both
variants create exactly N per-face files with 1-based indices 1..N in the
detector's returned order; the batch variant names them
outputDir/<baseFilename>_face_<index>.webp, while the single-image variant
names them face_<index>.webp, with no base-filename component. -/
theorem c3_amended_per_face_files (env : DetectEnv)
    (imagePath outputImagePath outputDir : String) (cols rows : Int)
    (hc : env.classifierOk = true) (hi : env.imageOk = true)
    (hok : ∀ j, env.saveFaceOks.getD j true = true) (hm : env.saveMainOk = true)
    (hne : env.faces ≠ []) :
    (Batch.detectFace env imagePath outputImagePath outputDir cols rows).written =
      (List.range env.faces.length).map
        (fun j => Batch.cropFileName outputDir (goStripExt (goBase imagePath)) (j + 1))
        ++ [outputImagePath] ∧
    (Single.detectFace env outputImagePath cols rows).written =
      (List.range env.faces.length).map (fun j => Single.cropFileName (j + 1))
        ++ [outputImagePath] := by
  have hne2 : env.faces.isEmpty = false := by
    cases hfa : env.faces with
    | nil => exact absurd hfa hne
    | cons a l => simp [hfa]
  constructor
  · simp only [Batch.detectFace, hc, hi, hne2, Bool.true_eq_false, Bool.false_eq_true, if_false]
    rw [faceLoop_err_none _ cols rows env.saveFaceOks hok env.faces 0 []]
    simp only [hm, if_true]
    rw [faceLoop_written_all_ok _ cols rows env.saveFaceOks hok env.faces 0 []]
    simp
  · simp only [Single.detectFace, hc, hi, hne2, Bool.true_eq_false, Bool.false_eq_true, if_false]
    rw [faceLoop_err_none _ cols rows env.saveFaceOks hok env.faces 0 []]
    simp only [hm, if_true]
    rw [faceLoop_written_all_ok _ cols rows env.saveFaceOks hok env.faces 0 []]
    simp

/-- Witness for the amended C3: two detections, all writes succeed, in both
variants. -/
theorem c3_amended_per_face_files_witness :
    (Batch.detectFace ⟨true, true, [⟨⟨1, 1⟩, ⟨2, 2⟩⟩, ⟨⟨3, 3⟩, ⟨4, 4⟩⟩], [], true⟩
        "input_images/a.jpg" "output_images/output_a.jpg.webp" "output_images"
        1024 1024).written =
      (List.range ([⟨⟨1, 1⟩, ⟨2, 2⟩⟩, ⟨⟨3, 3⟩, ⟨4, 4⟩⟩] : List Image.Rectangle).length).map
        (fun j => Batch.cropFileName "output_images"
          (goStripExt (goBase "input_images/a.jpg")) (j + 1))
        ++ ["output_images/output_a.jpg.webp"] ∧
    (Single.detectFace ⟨true, true, [⟨⟨1, 1⟩, ⟨2, 2⟩⟩, ⟨⟨3, 3⟩, ⟨4, 4⟩⟩], [], true⟩
        "output_images/output_a.jpg.webp" 1024 1024).written =
      (List.range ([⟨⟨1, 1⟩, ⟨2, 2⟩⟩, ⟨⟨3, 3⟩, ⟨4, 4⟩⟩] : List Image.Rectangle).length).map
        (fun j => Single.cropFileName (j + 1)) ++ ["output_images/output_a.jpg.webp"] :=
  c3_amended_per_face_files
    ⟨true, true, [⟨⟨1, 1⟩, ⟨2, 2⟩⟩, ⟨⟨3, 3⟩, ⟨4, 4⟩⟩], [], true⟩
    "input_images/a.jpg" "output_images/output_a.jpg.webp" "output_images" 1024 1024
    rfl rfl (by intro j; simp) rfl (by decide)

/-- C3 counterexample: in the single-image variant with one detection and all
writes succeeding, the per-face file created is face_1.webp, which does not
carry the base filename prefix the claim requires (for the variant's fixed
input teest.jpg that would be teest_face_1.webp). -/
theorem c3_single_name_counterexample :
    (Single.detectFace ⟨true, true, [⟨⟨100, 100⟩, ⟨200, 220⟩⟩], [], true⟩
        "output.webp" 1024 1024).written = ["face_1.webp", "output.webp"] ∧
    ("face_1.webp" : String) ≠
      goStripExt (goBase "teest.jpg") ++ "_face_" ++ toString 1 ++ ".webp" := by
  decide

/-- C8: on zero detections nothing is written (no per-face file, no main
annotated output) and no error is returned; the single-image variant
completes without error and its structured log record reports
has_face = false. -/
theorem c8_zero_detections (env : DetectEnv)
    (imagePath outputImagePath outputDir inputPath outputPath : String) (cols rows : Int)
    (hc : env.classifierOk = true) (hi : env.imageOk = true) (hf : env.faces = []) :
    (Batch.detectFace env imagePath outputImagePath outputDir cols rows).written = [] ∧
    (Batch.detectFace env imagePath outputImagePath outputDir cols rows).mainWritten = false ∧
    (Batch.detectFace env imagePath outputImagePath outputDir cols rows).err = none ∧
    (Batch.detectFace env imagePath outputImagePath outputDir cols rows).hasFace = false ∧
    (Single.processImage env inputPath outputPath cols rows).err = none ∧
    (Single.processImage env inputPath outputPath cols rows).record =
      some ⟨inputPath, outputPath, false⟩ ∧
    (Single.processImage env inputPath outputPath cols rows).written = [] := by
  simp [Batch.detectFace, Single.processImage, Single.detectFace, hc, hi, hf]

/-- Witness for C8 at a concrete zero-detection run. -/
theorem c8_zero_detections_witness :
    (Batch.detectFace ⟨true, true, [], [], true⟩ "input_images/a.jpg"
        "output_images/output_a.jpg.webp" "output_images" 1024 1024).written = [] ∧
    (Batch.detectFace ⟨true, true, [], [], true⟩ "input_images/a.jpg"
        "output_images/output_a.jpg.webp" "output_images" 1024 1024).mainWritten = false ∧
    (Batch.detectFace ⟨true, true, [], [], true⟩ "input_images/a.jpg"
        "output_images/output_a.jpg.webp" "output_images" 1024 1024).err = none ∧
    (Batch.detectFace ⟨true, true, [], [], true⟩ "input_images/a.jpg"
        "output_images/output_a.jpg.webp" "output_images" 1024 1024).hasFace = false ∧
    (Single.processImage ⟨true, true, [], [], true⟩ "teest.jpg" "output.webp"
        1024 1024).err = none ∧
    (Single.processImage ⟨true, true, [], [], true⟩ "teest.jpg" "output.webp"
        1024 1024).record = some ⟨"teest.jpg", "output.webp", false⟩ ∧
    (Single.processImage ⟨true, true, [], [], true⟩ "teest.jpg" "output.webp"
        1024 1024).written = [] :=
  c8_zero_detections ⟨true, true, [], [], true⟩ "input_images/a.jpg"
    "output_images/output_a.jpg.webp" "output_images" "teest.jpg" "output.webp"
    1024 1024 rfl rfl rfl

/-- Every non-directory entry whose detectFace call fails contributes an
error log line naming its path, and the loop continues over the remaining
entries. -/
theorem processFiles_error_logged (inputDir outputDir : String) (cols rows : Int) :
    ∀ (entries : List Batch.FileEntry), ∀ e ∈ entries, e.isDir = false →
      ∀ m, (Batch.detectFace e.env (inputDir ++ "/" ++ e.name)
          (outputDir ++ "/" ++ ("output_" ++ e.name ++ ".webp")) outputDir cols rows).err =
          some m →
      ("Error processing file " ++ (inputDir ++ "/" ++ e.name) ++ ": " ++ m) ∈
        (Batch.processFiles inputDir outputDir cols rows entries).logs := by
  intro entries
  induction entries with
  | nil => intro e he; simp at he
  | cons a rest ih =>
    intro e he hdir m hm
    rcases List.mem_cons.mp he with h | h
    · subst h
      simp only [Batch.processFiles, hdir, Bool.false_eq_true, if_false]
      rw [hm]
      simp
    · have hmem := ih e h hdir m hm
      simp only [Batch.processFiles]
      cases hd : a.isDir with
      | true => simpa [hd] using hmem
      | false =>
        simp only [hd, Bool.false_eq_true, if_false]
        exact List.mem_cons_of_mem _ (List.mem_append_right _ hmem)

/-- C9: per-file errors are non-fatal in the batch driver: with a readable
input directory, processImages returns no top-level error, main exits with
status 0 regardless of per-file failures, and every failing file's error is
logged together with the offending path while the batch continues. -/
theorem c9_per_file_errors_nonfatal (inputDir outputDir : String)
    (entries : List Batch.FileEntry) (cols rows : Int) :
    (Batch.processImages inputDir outputDir true entries cols rows).2 = none ∧
    Batch.mainExitCode true true entries = 0 ∧
    (∀ e ∈ entries, e.isDir = false →
      ∀ m, (Batch.detectFace e.env (inputDir ++ "/" ++ e.name)
          (outputDir ++ "/" ++ ("output_" ++ e.name ++ ".webp")) outputDir cols rows).err =
          some m →
        ("Error processing file " ++ (inputDir ++ "/" ++ e.name) ++ ": " ++ m) ∈
          (Batch.processImages inputDir outputDir true entries cols rows).1.logs) := by
  refine ⟨rfl, rfl, ?_⟩
  intro e he hdir m hm
  simpa [Batch.processImages] using
    processFiles_error_logged inputDir outputDir cols rows entries e he hdir m hm

/-- C2 counterexample: a batch run over one file with the classifier
definition file failing to load.  The load failure is handled as a per-file
error: it is logged with the file's path and the run exits with status 0,
not as a fatal startup error with a non-zero status. -/
theorem c2_batch_classifier_counterexample :
    Batch.mainExitCode true true [⟨"a.jpg", false, ⟨false, true, [], [], true⟩⟩] = 0 ∧
    (Batch.processImages "input_images" "output_images" true
        [⟨"a.jpg", false, ⟨false, true, [], [], true⟩⟩] 1024 1024).1.logs =
      ["Processing file: input_images/a.jpg",
       "Error processing file input_images/a.jpg: error loading Haar cascade file"] ∧
    (Batch.processImages "input_images" "output_images" true
        [⟨"a.jpg", false, ⟨false, true, [], [], true⟩⟩] 1024 1024).2 = none := by
  decide

/-- C2 amended: a classifier load failure is fatal only in the single-image
variant, where the error propagates out of processImage and the process
exits with status 1; in the batch variant the same failure is a per-file
error: the batch continues and the run exits with status 0. -/
theorem c2_amended_classifier_failure (env : DetectEnv)
    (entries : List Batch.FileEntry) (hc : env.classifierOk = false) :
    Single.mainExitCode env = 1 ∧
    (Single.processImage env "teest.jpg" "output.webp" 1024 1024).err =
      some ("failed to detect face: " ++ "error loading Haar cascade file") ∧
    Batch.mainExitCode true true entries = 0 := by
  refine ⟨?_, ?_, rfl⟩
  · simp [Single.mainExitCode, Single.processImage, Single.detectFace, hc]
  · simp [Single.processImage, Single.detectFace, hc]

/-- Witness for the amended C2 at a concrete environment. -/
theorem c2_amended_classifier_failure_witness :
    Single.mainExitCode ⟨false, true, [], [], true⟩ = 1 ∧
    (Single.processImage ⟨false, true, [], [], true⟩ "teest.jpg" "output.webp"
        1024 1024).err =
      some ("failed to detect face: " ++ "error loading Haar cascade file") ∧
    Batch.mainExitCode true true [] = 0 :=
  c2_amended_classifier_failure ⟨false, true, [], [], true⟩ [] rfl

/-- Witness for C7: two detections, all saves succeed; the second crop is
taken with exactly the first two outlines on the raster. -/
theorem c7_crop_between_outlines_witness :
    (Batch.detectFace ⟨true, true, [⟨⟨1, 1⟩, ⟨2, 2⟩⟩, ⟨⟨3, 3⟩, ⟨4, 4⟩⟩], [], true⟩
        "input_images/a.jpg" "output_images/output_a.jpg.webp" "output_images"
        1024 1024).crops.get? 1 =
      some ⟨1 + 1,
        cropRect 1024 1024
          (([⟨⟨1, 1⟩, ⟨2, 2⟩⟩, ⟨⟨3, 3⟩, ⟨4, 4⟩⟩] : List Image.Rectangle).getD 1 default),
        (([⟨⟨1, 1⟩, ⟨2, 2⟩⟩, ⟨⟨3, 3⟩, ⟨4, 4⟩⟩] : List Image.Rectangle).take (1 + 1)).map
          (expandedRect 1024 1024)⟩ :=
  c7_crop_between_outlines ⟨true, true, [⟨⟨1, 1⟩, ⟨2, 2⟩⟩, ⟨⟨3, 3⟩, ⟨4, 4⟩⟩], [], true⟩
    "input_images/a.jpg" "output_images/output_a.jpg.webp" "output_images" 1024 1024
    rfl rfl (by intro j; simp) 1 (by decide)
